import Mathlib

/-!
Verification of the boss ingest-client engine and backend against its
natural-language specification.

The development shallowly embeds the Python sources of
`ingestclient/core/backend.py`, `ingestclient/core/engine.py` and
`ingestclient/client.py`:

* Python strings are `List Char`; `str.split(sep)` is `pySplit`.
* Python integers are `Int`; `str(i)` is `intStr`, `int(s)` is `pyInt`
  (`none` models the `ValueError` raised on a malformed literal).
* `hashlib.md5(...).hexdigest()` is `md5hex`, a complete executable MD5
  over the ASCII bytes of the input (all key material is ASCII).
* Stateful loops become explicit state passing; the cloud environment
  (HTTP responses, SQS receive/delete outcomes, S3 put outcomes) is an
  explicit input sequence; `raise` becomes an `Except.error` / `none`
  result; calls to `time.sleep` are recorded in an explicit trace.
-/

set_option maxRecDepth 10000

namespace IngestClient

/-! ### Python string primitives -/

/-- Python `s.split(sep)` for a one-character separator: the list of maximal
runs between separator occurrences, keeping empty runs, so that
`"".split -> [""]` and `"a&&b".split -> ["a", "", "b"]`. -/
def pySplit (sep : Char) : List Char → List (List Char)
  | [] => [[]]
  | c :: rest =>
    if c = sep then [] :: pySplit sep rest
    else
      match pySplit sep rest with
      | [] => [[c]]
      | p :: ps => (c :: p) :: ps

/-- Python `pre + s` membership test `s.startswith(pre)`. -/
def pyStartsWith (pre s : List Char) : Bool := s.take pre.length == pre

/-- Decimal digit character, as produced by Python `str` on `0..9`. -/
def digitChar (d : Nat) : Char :=
  if d = 0 then '0' else if d = 1 then '1' else if d = 2 then '2'
  else if d = 3 then '3' else if d = 4 then '4' else if d = 5 then '5'
  else if d = 6 then '6' else if d = 7 then '7' else if d = 8 then '8'
  else if d = 9 then '9' else '0'

/-- Decimal digits of a natural number, most significant first; the fuel
argument (any bound with `n < 10 ^ fuel`) makes the recursion structural. -/
def natStrGo (fuel : Nat) (n : Nat) : List Char :=
  match fuel with
  | 0 => []
  | fuel + 1 =>
    if n < 10 then [digitChar n]
    else natStrGo fuel (n / 10) ++ [digitChar (n % 10)]

/-- Decimal representation of a natural number (most significant digit
first), as produced by Python `str`. -/
def natStr (n : Nat) : List Char := natStrGo (n + 1) n

/-- Python `str(i)` for an `int`. -/
def intStr (i : Int) : List Char :=
  if i < 0 then '-' :: natStr i.natAbs else natStr i.toNat

/-- Test for an ASCII decimal digit. -/
def isDig (c : Char) : Bool := 48 ≤ c.toNat && c.toNat ≤ 57

/-- Python `int(s)` on an unsigned decimal literal: every character must be
a digit and the string must be nonempty, else `ValueError` (`none`). -/
def parseNat (ds : List Char) : Option Nat :=
  if ds = [] then none
  else if ds.all isDig then some (ds.foldl (fun a c => 10 * a + (c.toNat - 48)) 0)
  else none

/-- Python `int(s)` restricted to the optionally-negated decimal literals
produced by `str(int)`; `none` models the `ValueError` on anything else. -/
def pyInt : List Char → Option Int
  | [] => none
  | c :: rest =>
    if c = '-' then (parseNat rest).map (fun n => -(n : Int))
    else (parseNat (c :: rest)).map (fun n => (n : Int))

/-- Python `"&".join(parts)`. -/
def joinAmp : List (List Char) → List Char
  | [] => []
  | [p] => p
  | p :: ps => p ++ '&' :: joinAmp ps

/-! ### MD5 (`hashlib.md5`), executable, over byte lists

Words are `Nat` kept below `2 ^ 32` by explicit `% 4294967296`. -/

/-- The word modulus of MD5, `2 ^ 32`. -/
def M32 : Nat := 4294967296

/-- Left-rotation of a 32-bit word. -/
def rotl32 (x s : Nat) : Nat := ((x <<< s) % M32) ||| (x >>> (32 - s))

/-- Bitwise complement within 32 bits. -/
def not32 (x : Nat) : Nat := x ^^^ 4294967295

/-- MD5 round function F. -/
def mdF (b c d : Nat) : Nat := (b &&& c) ||| (not32 b &&& d)

/-- MD5 round function G. -/
def mdG (b c d : Nat) : Nat := (d &&& b) ||| (not32 d &&& c)

/-- MD5 round function H. -/
def mdH (b c d : Nat) : Nat := b ^^^ c ^^^ d

/-- MD5 round function I. -/
def mdI (b c d : Nat) : Nat := c ^^^ (b ||| not32 d)

/-- The 64 MD5 sine-derived constants. -/
def mdK : List Nat :=
  [0xd76aa478, 0xe8c7b756, 0x242070db, 0xc1bdceee,
   0xf57c0faf, 0x4787c62a, 0xa8304613, 0xfd469501,
   0x698098d8, 0x8b44f7af, 0xffff5bb1, 0x895cd7be,
   0x6b901122, 0xfd987193, 0xa679438e, 0x49b40821,
   0xf61e2562, 0xc040b340, 0x265e5a51, 0xe9b6c7aa,
   0xd62f105d, 0x02441453, 0xd8a1e681, 0xe7d3fbc8,
   0x21e1cde6, 0xc33707d6, 0xf4d50d87, 0x455a14ed,
   0xa9e3e905, 0xfcefa3f8, 0x676f02d9, 0x8d2a4c8a,
   0xfffa3942, 0x8771f681, 0x6d9d6122, 0xfde5380c,
   0xa4beea44, 0x4bdecfa9, 0xf6bb4b60, 0xbebfbc70,
   0x289b7ec6, 0xeaa127fa, 0xd4ef3085, 0x04881d05,
   0xd9d4d039, 0xe6db99e5, 0x1fa27cf8, 0xc4ac5665,
   0xf4292244, 0x432aff97, 0xab9423a7, 0xfc93a039,
   0x655b59c3, 0x8f0ccc92, 0xffeff47d, 0x85845dd1,
   0x6fa87e4f, 0xfe2ce6e0, 0xa3014314, 0x4e0811a1,
   0xf7537e82, 0xbd3af235, 0x2ad7d2bb, 0xeb86d391]

/-- The 64 MD5 per-round left-rotation amounts. -/
def mdS : List Nat :=
  [7, 12, 17, 22, 7, 12, 17, 22, 7, 12, 17, 22, 7, 12, 17, 22,
   5, 9, 14, 20, 5, 9, 14, 20, 5, 9, 14, 20, 5, 9, 14, 20,
   4, 11, 16, 23, 4, 11, 16, 23, 4, 11, 16, 23, 4, 11, 16, 23,
   6, 10, 15, 21, 6, 10, 15, 21, 6, 10, 15, 21, 6, 10, 15, 21]

/-- One of the 64 MD5 rounds applied to the running state `(a, b, c, d)`,
reading the current block's 16 little-endian words from `m`. -/
def md5round (m : List Nat) (st : Nat × Nat × Nat × Nat) (i : Nat) :
    Nat × Nat × Nat × Nat :=
  let (a, b, c, d) := st
  let fg : Nat × Nat :=
    if i < 16 then (mdF b c d, i)
    else if i < 32 then (mdG b c d, (5 * i + 1) % 16)
    else if i < 48 then (mdH b c d, (3 * i + 5) % 16)
    else (mdI b c d, (7 * i) % 16)
  let f := (fg.1 + a + mdK.getD i 0 + m.getD fg.2 0) % M32
  (d, (b + rotl32 f (mdS.getD i 0)) % M32, b, c)

/-- Group a block's bytes into little-endian 32-bit words. -/
def toWords : List Nat → List Nat
  | b0 :: b1 :: b2 :: b3 :: rest =>
    (b0 + 256 * b1 + 65536 * b2 + 16777216 * b3) :: toWords rest
  | _ => []

/-- Process one 64-byte block, updating the four-word MD5 state. -/
def md5block (st : Nat × Nat × Nat × Nat) (blk : List Nat) :
    Nat × Nat × Nat × Nat :=
  let m := toWords blk
  let r := (List.range 64).foldl (md5round m) st
  ((st.1 + r.1) % M32, (st.2.1 + r.2.1) % M32,
   (st.2.2.1 + r.2.2.1) % M32, (st.2.2.2 + r.2.2.2) % M32)

/-- Little-endian byte decomposition of a 64-bit length value. -/
def leBytes8 (n : Nat) : List Nat :=
  [n % 256, n / 256 % 256, n / 65536 % 256, n / 16777216 % 256,
   n / 4294967296 % 256, n / 1099511627776 % 256,
   n / 281474976710656 % 256, n / 72057594037927936 % 256]

/-- MD5 padding: a `0x80` byte, zeros to 56 mod 64, then the bit length as
a little-endian 64-bit value. -/
def md5pad (msg : List Nat) : List Nat :=
  let len := msg.length
  let zeros := (120 - (len + 1) % 64) % 64
  msg ++ 0x80 :: List.replicate zeros 0 ++ leBytes8 (len * 8 % 18446744073709551616)

/-- Split a byte list into 64-byte blocks; the fuel argument (at least the
list length) makes the recursion structural. -/
def toBlocksGo (fuel : Nat) (l : List Nat) : List (List Nat) :=
  match fuel, l with
  | _, [] => []
  | 0, _ => []
  | fuel + 1, l => l.take 64 :: toBlocksGo fuel (l.drop 64)

/-- Split a byte list into 64-byte blocks. -/
def toBlocks (l : List Nat) : List (List Nat) := toBlocksGo l.length l

/-- Little-endian byte decomposition of one 32-bit state word; every entry
is `< 256` by construction. -/
def wordLE (w : Nat) : List Nat :=
  [w % 256, w / 256 % 256, w / 65536 % 256, w / 16777216 % 256]

/-- The 16-byte MD5 digest of a byte list. -/
def md5bytes (msg : List Nat) : List Nat :=
  let st := (toBlocks (md5pad msg)).foldl md5block
    (0x67452301, 0xefcdab89, 0x98badcfe, 0x10325476)
  wordLE st.1 ++ wordLE st.2.1 ++ wordLE st.2.2.1 ++ wordLE st.2.2.2

/-- The sixteen lower-case hex digit characters. -/
def hexDigits : List Char :=
  ['0', '1', '2', '3', '4', '5', '6', '7'] ++ ['8', '9', 'a', 'b', 'c', 'd', 'e', 'f']

/-- Lower-case hex character of a nibble. -/
def hexChar (n : Nat) : Char := hexDigits.getD n '0'

/-- Two-character lower-case hex rendering of a byte. -/
def byteHex (b : Nat) : List Char := [hexChar (b / 16), hexChar (b % 16)]

/-- Model of `hashlib.md5(s.encode()).hexdigest()` for an ASCII string `s`. -/
def md5hex (s : List Char) : List Char :=
  (md5bytes (s.map Char.toNat)).flatMap byteHex

/-! ### Key codec (`BossBackend.encode_tile_key` / `decode_tile_key`,
`encode_chunk_key` / `decode_chunk_key`, backend.py lines 683-779)

The claims quantify over integer inputs, so `project_info` is embedded as
the three integers (collection, experiment, channel) that `decode` reads
back; the source applies `str` to each element. -/

/-- Model of `BossBackend.encode_tile_key`: ampersand-join the project fields,
resolution and indices, and put the MD5 hex digest of that base in front. -/
def encode_tile_key (project_info : List Int) (resolution x_index y_index z_index t_index : Int) :
    List Char :=
  let proj_str := joinAmp (project_info.map intStr)
  let base_key := proj_str ++ '&' :: intStr resolution ++ '&' :: intStr x_index ++
    '&' :: intStr y_index ++ '&' :: intStr z_index ++ '&' :: intStr t_index
  md5hex base_key ++ '&' :: base_key

/-- Model of `BossBackend.encode_chunk_key`: as the tile key, with `num_tiles`
prepended to the base before hashing. -/
def encode_chunk_key (num_tiles : Int) (project_info : List Int)
    (resolution x_index y_index z_index t_index : Int) : List Char :=
  let proj_str := joinAmp (project_info.map intStr)
  let base_key := intStr num_tiles ++ '&' :: proj_str ++ '&' :: intStr resolution ++
    '&' :: intStr x_index ++ '&' :: intStr y_index ++ '&' :: intStr z_index ++
    '&' :: intStr t_index
  md5hex base_key ++ '&' :: base_key

/-- Components read back by `BossBackend.decode_tile_key`. -/
structure TileKeyParts where
  collection : Int
  experiment : Int
  channel : Int
  resolution : Int
  x_index : Int
  y_index : Int
  z_index : Int
  t_index : Int
deriving Repr, DecidableEq

/-- Components read back by `BossBackend.decode_chunk_key`. -/
structure ChunkKeyParts where
  num_tiles : Int
  collection : Int
  experiment : Int
  channel : Int
  resolution : Int
  x_index : Int
  y_index : Int
  z_index : Int
  t_index : Int
deriving Repr, DecidableEq

/-- Model of `BossBackend.decode_tile_key`: split on `&`, skip the hash at index 0,
parse fields 1-8 as integers; `none` models the IndexError / ValueError a
malformed key raises. -/
def decode_tile_key (key : List Char) : Option TileKeyParts :=
  let parts := pySplit '&' key
  let fld (i : Nat) : Option Int := (parts.get? i).bind pyInt
  match fld 1, fld 2, fld 3, fld 4, fld 5, fld 6, fld 7, fld 8 with
  | some collection, some experiment, some channel, some resolution,
    some x_index, some y_index, some z_index, some t_index =>
    some ⟨collection, experiment, channel, resolution, x_index, y_index, z_index, t_index⟩
  | _, _, _, _, _, _, _, _ => none

/-- Model of `BossBackend.decode_chunk_key`: split on `&`, skip the hash, parse
fields 1-9 (`num_tiles` first) as integers. -/
def decode_chunk_key (key : List Char) : Option ChunkKeyParts :=
  let parts := pySplit '&' key
  let fld (i : Nat) : Option Int := (parts.get? i).bind pyInt
  match fld 1, fld 2, fld 3, fld 4, fld 5, fld 6, fld 7, fld 8, fld 9 with
  | some num_tiles, some collection, some experiment, some channel, some resolution,
    some x_index, some y_index, some z_index, some t_index =>
    some ⟨num_tiles, collection, experiment, channel, resolution, x_index, y_index, z_index, t_index⟩
  | _, _, _, _, _, _, _, _, _ => none

/-! ### Backend join and the engine's join (backend.py lines 428-498,
engine.py lines 175-193)

`BossBackend.join` returns, at backend.py line 498, the seven-component
tuple `(job_status, creds, upload_queue, tile_index_queue, tile_bucket,
params, num_tiles)`.  `Engine.join` at engine.py line 189 assigns that
call's result to the six names `job_status, credentials, upload_job_queue,
tile_bucket, job_params, tile_count`.  Python tuple assignment to `n`
names succeeds only when the tuple has exactly `n` components, so the
embedding keeps the tuple as a list of tagged components and `Engine.join`
matches on the six-element shape, erroring otherwise exactly as Python
raises `ValueError: too many values to unpack`. -/

/-- AWS credential bundle handed back by the ingest service. -/
structure Credentials where
  access_key : List Char
  secret_key : List Char
deriving Repr, DecidableEq

/-- The body of a successful (HTTP 200, non-preparing, credentials
present) join response, as read by `BossBackend.join`. -/
structure JoinResponse where
  job_status : Nat
  credentials : Credentials
  upload_queue : List Char
  tile_index_queue : Option (List Char)
  tile_bucket_name : List Char
  params : List (List Char × List Char)
  tile_count : Nat
deriving Repr, DecidableEq

/-- One component of the tuple built at backend.py line 498. -/
inductive JoinComponent where
  | jobStatus (s : Nat)
  | creds (c : Credentials)
  | uploadQueue (q : List Char)
  | tileIndexQueue (q : Option (List Char))
  | tileBucket (b : List Char)
  | jobParams (p : List (List Char × List Char))
  | numTiles (n : Nat)
deriving Repr, DecidableEq

/-- The tuple `BossBackend.join` returns on success (backend.py line 498):
`return job_status, creds, upload_queue, tile_index_queue, tile_bucket,
params, num_tiles`. -/
def bossBackend_join_tuple (r : JoinResponse) : List JoinComponent :=
  [.jobStatus r.job_status, .creds r.credentials, .uploadQueue r.upload_queue,
   .tileIndexQueue r.tile_index_queue, .tileBucket r.tile_bucket_name,
   .jobParams r.params, .numTiles r.tile_count]

/-- The engine attributes `Engine.join` stores on success, plus the
recorded credential creation time. -/
structure EngineJoinState where
  job_status : Nat
  credentials : Credentials
  upload_job_queue : List Char
  tile_bucket : List Char
  job_params : List (List Char × List Char)
  tile_count : Nat
  credential_create_time : Int
deriving Repr, DecidableEq

/-- Model of `Engine.join` (engine.py lines 175-193): unpack the backend tuple into
the six engine attributes and set `credential_create_time` to `now`;
`Except.error` is the `ValueError` Python raises when the tuple's arity
does not match the six assignment targets. -/
def engine_join (r : JoinResponse) (now : Int) : Except (List Char) EngineJoinState :=
  match bossBackend_join_tuple r with
  | [.jobStatus s, .creds c, .uploadQueue q, .tileBucket b, .jobParams p, .numTiles n] =>
    .ok ⟨s, c, q, b, p, n, now⟩
  | l =>
    if l.length > 6 then .error "ValueError: too many values to unpack (expected 6)".toList
    else .error "ValueError: not enough values to unpack".toList

/-! ### Worker upload paths (engine.py lines 375-585)

The cloud environment is an explicit input: the outcome of each
`put_object` call and of each plugin call.  An exception is carried as its
message string, since `Engine` classifies upload failures with
`str(e).startswith(...)`. -/

/-- Outcome of one `put_object` call: success, or an exception with the
given message. -/
inductive PutOutcome where
  | ok
  | err (msg : List Char)
deriving Repr, DecidableEq

/-- Outcome of a path-processor or data-processor plugin call: a value, or
an exception with the given message. -/
inductive StepOutcome (α : Type) where
  | ok (a : α)
  | exn (msg : List Char)
deriving Repr, DecidableEq

/-- The per-worker error-classification state mutated by
`upload_tile` / `upload_cuboid`. -/
structure WorkerCounters where
  access_denied : Bool
  access_denied_count : Nat
  invalid_access_key : Bool
  invalid_access_key_count : Nat
deriving Repr, DecidableEq

/-- The counter state `Engine.run` installs before its loop
(engine.py lines 327-330). -/
def initCounters : WorkerCounters := ⟨false, 0, false, 0⟩

/-- Message prefix the engine matches for access-denied upload failures. -/
def accessDeniedMsg : List Char :=
  "An error occurred (AccessDenied) when calling the PutObject operation".toList

/-- Message prefix the engine matches for invalid-access-key upload
failures. -/
def invalidKeyMsg : List Char :=
  "An error occurred (InvalidAccessKeyId) when calling the PutObject operation".toList

/-- The shared `except Exception` classification body of `upload_tile`
(engine.py lines 425-446) and `upload_cuboid` (lines 567-583): classify by
message prefix, bump the matching counter, and abort (return `False`) once
a counter reaches 20.  The result records the updated counters, the
boolean the method returns, and the `time.sleep` calls it performs. -/
def classify_upload_failure (st : WorkerCounters) (msg : List Char) :
    WorkerCounters × Bool × List Nat :=
  if pyStartsWith accessDeniedMsg msg then
    let st := { st with access_denied := true, access_denied_count := st.access_denied_count + 1 }
    if st.access_denied_count ≥ 20 then (st, false, []) else (st, true, [])
  else if pyStartsWith invalidKeyMsg msg then
    let st := { st with invalid_access_key := true,
                        invalid_access_key_count := st.invalid_access_key_count + 1 }
    if st.invalid_access_key_count ≥ 20 then (st, false, [5]) else (st, true, [5])
  else (st, true, [])

/-- Model of `Engine.upload_cuboid` (engine.py lines 504-585) as observed through
its counter state and return value: carving, padding and compressing are
pure and raise nothing for an in-range descriptor, so the try block's
outcome is decided by the `put_object` call. -/
def upload_cuboid (st : WorkerCounters) (put : PutOutcome) : WorkerCounters × Bool :=
  match put with
  | .ok => (st, true)
  | .err m =>
    let r := classify_upload_failure st m
    (r.1, r.2.1)

/-- Trace of one `upload_chunk` call. -/
structure ChunkTrace where
  counters : WorkerCounters
  retval : Bool
  delete_called : Bool
  cuboids_attempted : Nat
deriving Repr, DecidableEq

/-- The cuboid loop of `Engine.upload_chunk` (engine.py lines 490-502):
upload each cuboid in order, stop when `upload_cuboid` returns `False`,
and call `backend.delete_task` only after the loop finishes all cuboids. -/
def upload_chunk_loop (st : WorkerCounters) (puts : List PutOutcome) (attempted : Nat) :
    ChunkTrace :=
  match puts with
  | [] => ⟨st, true, true, attempted⟩
  | put :: rest =>
    if (upload_cuboid st put).2 then
      upload_chunk_loop (upload_cuboid st put).1 rest (attempted + 1)
    else ⟨(upload_cuboid st put).1, false, false, attempted + 1⟩

/-- Model of `Engine.upload_chunk` (engine.py lines 450-502): decode the chunk key,
call the path processor and the chunk processor (all outside any `try`, so
an exception there propagates out of the method), then run the cuboid
loop.  `Except.error` is a propagating exception. -/
def upload_chunk (st : WorkerCounters) (path : StepOutcome (List Char))
    (read : StepOutcome Unit) (puts : List PutOutcome) : Except (List Char) ChunkTrace :=
  match path with
  | .exn m => .error m
  | .ok _ =>
    match read with
    | .exn m => .error m
    | .ok _ => .ok (upload_chunk_loop st puts 0)

/-- Metadata attached to a tile object upload (engine.py lines 414-422). -/
structure TileUploadRecord where
  message_id : List Char
  receipt_handle : List Char
deriving Repr, DecidableEq

/-- Trace of one `upload_tile` call. -/
structure TileTrace where
  counters : WorkerCounters
  retval : Bool
  uploaded : Option TileUploadRecord
  sleeps : List Nat
deriving Repr, DecidableEq

/-- Model of `Engine.upload_tile` (engine.py lines 375-448): decode the tile key,
call the path processor and the tile processor — both outside the `try`
block that starts at line 406, so an exception from either propagates out
of the method — then upload inside the `try`, classifying any upload
exception; the message is never deleted from the queue by this method. -/
def upload_tile (st : WorkerCounters) (path : StepOutcome (List Char))
    (read : StepOutcome Unit) (put : PutOutcome)
    (message_id receipt_handle : List Char) : Except (List Char) TileTrace :=
  match path with
  | .exn m => .error m
  | .ok _ =>
    match read with
    | .exn m => .error m
    | .ok _ =>
      match put with
      | .ok => .ok ⟨st, true, some ⟨message_id, receipt_handle⟩, []⟩
      | .err m =>
        let r := classify_upload_failure st m
        .ok ⟨r.1, r.2.1, none, r.2.2⟩

/-! ### `Engine.run`'s startup guard and credential-refresh prelude
(engine.py lines 304-349) -/

/-- The status guard at the top of `Engine.run` (engine.py lines 310-324):
`some msg` means the method raises `Exception(msg)` before fetching any
task; `none` means it proceeds into the task loop. -/
def run_guard (credentials : Option Credentials) (job_status : Nat) : Option (List Char) :=
  if credentials = none then
    some "Cannot start ingest engine.  Credentials not successfully received from the ingest service.".toList
  else if job_status = 0 then
    some "Cannot start ingest engine.  Ingest job is not ready yet.".toList
  else if job_status = 2 then
    some "Ingest job already completed. Skipping ingest engine start.".toList
  else none

/-- Mutable loop state carried across iterations of `Engine.run`'s main
loop. -/
structure RunLoopState where
  access_denied : Bool
  access_denied_count : Nat
  invalid_access_key : Bool
  invalid_access_key_count : Nat
  credential_create_time : Int
deriving Repr, DecidableEq

/-- The value of `datetime.datetime.min` as a POSIX timestamp (year 1), the sentinel
`Engine.run` stores to force a credential renewal. -/
def datetimeMin : Int := -62135596800

/-- Lines 334-336 of engine.py: consume the `access_denied` flag,
back-dating the credential timestamp to force a renewal. -/
def apply_access_denied_flag (st : RunLoopState) : RunLoopState :=
  if st.access_denied then
    { st with access_denied := false, credential_create_time := datetimeMin }
  else st

/-- Lines 337-342 of engine.py: consume the `invalid_access_key` flag,
back-dating the credential timestamp on every fifth occurrence. -/
def apply_invalid_key_flag (st : RunLoopState) : RunLoopState :=
  if st.invalid_access_key then
    if st.invalid_access_key_count % 5 = 4 then
      { st with invalid_access_key := false, credential_create_time := datetimeMin }
    else { st with invalid_access_key := false }
  else st

/-- The credential-refresh prelude of one `Engine.run` loop iteration
(engine.py lines 334-349): consume the `access_denied` /
`invalid_access_key` flags, possibly back-date the credential timestamp,
then rejoin when the credential age exceeds the timeout.  `Engine.join`
sets `credential_create_time` to the current time; the returned flag
records whether `join` was called.  No other field is modified. -/
def run_loop_prelude (st : RunLoopState) (now timeout : Int) : RunLoopState × Bool :=
  let st1 := apply_invalid_key_flag (apply_access_denied_flag st)
  if now - st1.credential_create_time > timeout then
    ({ st1 with credential_create_time := now }, true)
  else (st1, false)

/-! ### `BossBackend.get_task` (backend.py lines 556-583) -/

/-- One SQS message as returned by `receive_messages`. -/
structure TaskMsg where
  message_id : List Char
  receipt_handle : List Char
  body : List Char
deriving Repr, DecidableEq

/-- Outcome of one `upload_queue.receive_messages` call: a
`botocore ClientError`, or a message list that is either empty or holds
one message. -/
inductive ReceiveOutcome where
  | clientError
  | msgs (m : Option TaskMsg)
deriving Repr, DecidableEq

/-- Trace of one `get_task` call: the number of `receive_messages`
attempts, the `time.sleep` durations in order, and the outcome — `none`
for a raised exception, `some none` for the `(None, None, None)` return,
`some (some m)` for a returned message. -/
structure GetTaskTrace where
  attempts : Nat
  sleeps : List Nat
  result : Option (Option TaskMsg)
deriving Repr, DecidableEq

/-- The retry loop of `BossBackend.get_task` (backend.py lines 566-578):
`while try_cnt < 19`, break on a successful receive, and on `ClientError`
increment `try_cnt`, sleep 15 s and raise once `try_cnt >= 20`. -/
def get_task_go (recv : Nat → ReceiveOutcome) (try_cnt attempt : Nat) (sleeps : List Nat) :
    GetTaskTrace :=
  if try_cnt < 19 then
    match recv attempt with
    | .msgs m => ⟨attempt + 1, sleeps, some m⟩
    | .clientError =>
      let t := try_cnt + 1
      let sleeps := sleeps ++ [15]
      if t ≥ 20 then ⟨attempt + 1, sleeps, none⟩
      else get_task_go recv t (attempt + 1) sleeps
  else ⟨attempt, sleeps, some none⟩
termination_by 19 - try_cnt

/-- Model of `BossBackend.get_task` (backend.py lines 556-583), with the sequence
of `receive_messages` outcomes as the environment. -/
def get_task (recv : Nat → ReceiveOutcome) : GetTaskTrace := get_task_go recv 0 0 []

/-! ### `BossBackend.delete_task` (backend.py lines 585-626) -/

/-- Outcome of one `upload_queue.delete_messages` call. -/
inductive DeleteOutcome where
  | success (id_matches : Bool)
  | failed (senderFault : Bool)
  | noInfo
  | clientError
deriving Repr, DecidableEq

/-- Trace of one `delete_task` call: attempts made, sleeps performed, and
`none` for a raised exception or `some b` for a returned boolean. -/
structure DeleteTrace where
  attempts : Nat
  sleeps : List Nat
  result : Option Bool
deriving Repr, DecidableEq

/-- Model of `get_wait_time` (utils/backoff.py): `2 ** (retry_num + 3)` seconds. -/
def get_wait_time (retry_num : Nat) : Nat := 2 ^ (retry_num + 3)

/-- The retry loop of `BossBackend.delete_task` (backend.py lines
599-626): `MAX_TRIES = 20`, `while try_cnt < MAX_TRIES - 1`; return `True`
when the response lists the message id as successfully deleted; otherwise
count the try, give up immediately (`break`, returning `False`) on a
sender-fault failure, sleep `get_wait_time(try_cnt)` and loop; a
`ClientError` counts the try, sleeps 15 s and would raise once
`try_cnt >= MAX_TRIES`. -/
def delete_task_go (recv : Nat → DeleteOutcome) (try_cnt attempt : Nat) (sleeps : List Nat) :
    DeleteTrace :=
  if try_cnt < 20 - 1 then
    match recv attempt with
    | .success true => ⟨attempt + 1, sleeps, some true⟩
    | .success false =>
      let t := try_cnt + 1
      delete_task_go recv t (attempt + 1) (sleeps ++ [get_wait_time t])
    | .noInfo =>
      let t := try_cnt + 1
      delete_task_go recv t (attempt + 1) (sleeps ++ [get_wait_time t])
    | .failed sf =>
      let t := try_cnt + 1
      if sf then ⟨attempt + 1, sleeps, some false⟩
      else delete_task_go recv t (attempt + 1) (sleeps ++ [get_wait_time t])
    | .clientError =>
      let t := try_cnt + 1
      let sleeps := sleeps ++ [15]
      if t ≥ 20 then ⟨attempt + 1, sleeps, none⟩
      else delete_task_go recv t (attempt + 1) sleeps
  else ⟨attempt, sleeps, some false⟩
termination_by 19 - try_cnt

/-- Model of `BossBackend.delete_task` (backend.py lines 585-626), with the
sequence of `delete_messages` outcomes as the environment. -/
def delete_task (recv : Nat → DeleteOutcome) : DeleteTrace := delete_task_go recv 0 0 []

/-! ### Retry policy of `BossBackend.join` and `BossBackend.get_job_status`
(backend.py lines 443-459 and 651-681) -/

/-- How a retry loop reacts to one HTTP response: retry after sleeping a
jittered pause drawn from `uniform(lo_ms, hi_ms) / 1000` seconds, raise,
or proceed to handle the body. -/
inductive RetryAction where
  | retryPause (lo_ms hi_ms : Nat)
  | fail
  | proceed
deriving Repr, DecidableEq

/-- Response handling of the `BossBackend.join` retry loop (backend.py
lines 444-461): `maximum_retries = 1000`, `max_pause_in_ms = 1000000`,
retried status codes 400/500/502/503, backoff `100 * 2 ** (retries + 4)`
milliseconds after incrementing `retries`.  `retries` is the count of
retries already performed before this response. -/
def join_handle_response (status_code retries : Nat) : RetryAction :=
  if status_code ∈ [400, 500, 502, 503] then
    let r := retries + 1
    if r > 1000 then .fail
    else .retryPause 1 (min 1000000 (100 * 2 ^ (r + 4)))
  else if status_code ≠ 200 then .fail
  else .proceed

/-- Response handling of the `BossBackend.get_job_status` retry loop
(backend.py lines 662-681): `maximum_retries = 100`, retried status codes
500/502/503, backoff `100 * 2 ** retries` milliseconds capped at 30000
milliseconds. -/
def get_job_status_handle_response (status_code retries : Nat) : RetryAction :=
  if status_code ∈ [500, 502, 503] then
    let r := retries + 1
    if r > 100 then .fail
    else .retryPause 1 (min 30000 (100 * 2 ^ r))
  else if status_code ≠ 200 then .fail
  else .proceed

/-! ### `BossBackend.complete` and the coordinator's completion phase
(backend.py lines 518-554, client.py lines 336-347) -/

/-- The enum `IngestStatus` (backend.py lines 33-38); `STOP` is what the spec calls
`DONE` and `COMPLETING` is what it calls `POLLING`. -/
inductive IngestStatus where
  | STOP
  | UPLOAD
  | WAIT
  | COMPLETING
deriving Repr, DecidableEq

/-- JSON body of a completion response, as far as `complete` reads it. -/
structure CompleteBody where
  wait_secs : Option Nat
  job_status : Option Nat
deriving Repr, DecidableEq

/-- Model of `BossBackend.complete` (backend.py lines 518-554): map the HTTP
response to an `(IngestStatus, wait seconds)` pair, or raise
(`Except.error`). -/
def boss_complete (status_code : Nat) (body : Option CompleteBody) :
    Except (List Char) (IngestStatus × Nat) :=
  if status_code = 204 then .ok (.STOP, 0)
  else
    match body with
    | none => .error "Error parsing response from backend".toList
    | some data =>
      if status_code = 400 then
        match data.wait_secs with
        | some w => .ok (.WAIT, w)
        | none => .error "Failed to complete ingest job".toList
      else if status_code = 202 then
        match data.job_status with
        | some 6 =>
          match data.wait_secs with
          | some w => .ok (.WAIT, w)
          | none => .error "Failed to complete ingest job".toList
        | some 5 => .ok (.COMPLETING, 0)
        | _ => .error "Failed to complete ingest job".toList
      else .error "Failed to complete ingest job".toList

/-- Trace of the coordinator's completion phase. -/
structure CompletionTrace where
  complete_calls : Nat
  sleeps : List Nat
  status_polls : Nat
deriving Repr, DecidableEq

/-- The completion phase of `main` (client.py lines 336-347): when the
monitor loop exited naturally (`job_complete`) and `--manual-complete` was
not given, call `engine.complete()` exactly once, discarding its returned
`(IngestStatus, wait_secs)` value; there is no sleep, no repeated call,
and no `get_job_status` polling.  The behavior of `complete` is passed in
as the sequence of values successive calls would return. -/
def completion_phase (job_complete manual_complete : Bool)
    (results : Nat → IngestStatus × Nat) : CompletionTrace :=
  if job_complete && !manual_complete then
    let _ := results 0
    ⟨1, [], 0⟩
  else ⟨0, [], 0⟩

/-! ## Supporting lemmas -/

theorem digitChar_isDig (d : Nat) : isDig (digitChar d) = true := by
  unfold digitChar
  repeat' split
  all_goals decide

theorem digitChar_ne_amp (d : Nat) : digitChar d ≠ '&' := by
  unfold digitChar
  repeat' split
  all_goals decide

theorem digitChar_toNat (d : Nat) (h : d < 10) : (digitChar d).toNat - 48 = d := by
  interval_cases d <;> decide

theorem natStr_ne_nil (n : Nat) : natStr n ≠ [] := by
  unfold natStr natStrGo
  split
  · exact List.cons_ne_nil _ _
  · simp

theorem natStrGo_all_isDig (fuel : Nat) : ∀ n, (natStrGo fuel n).all isDig = true := by
  induction fuel with
  | zero => intro n; rfl
  | succ fuel ih =>
    intro n
    unfold natStrGo
    split
    · simp [digitChar_isDig]
    · rw [List.all_append]
      simp [ih, digitChar_isDig]

theorem mem_natStr_isDig {c : Char} {n : Nat} (h : c ∈ natStr n) : isDig c = true :=
  List.all_eq_true.mp (natStrGo_all_isDig (n + 1) n) c h

theorem amp_not_mem_natStr (n : Nat) : '&' ∉ natStr n := by
  intro h
  exact absurd (mem_natStr_isDig h) (by decide)

theorem amp_not_mem_intStr (i : Int) : '&' ∉ intStr i := by
  unfold intStr
  split
  · intro h
    rcases List.mem_cons.mp h with h | h
    · exact absurd h (by decide)
    · exact amp_not_mem_natStr _ h
  · exact amp_not_mem_natStr _

theorem natStrGo_foldl (fuel : Nat) : ∀ n acc, n < 10 ^ fuel →
    (natStrGo fuel n).foldl (fun a c => 10 * a + (c.toNat - 48)) acc =
      acc * 10 ^ (natStrGo fuel n).length + n := by
  induction fuel with
  | zero =>
    intro n acc h
    interval_cases n
    simp [natStrGo]
  | succ fuel ih =>
    intro n acc h
    unfold natStrGo
    split
    · next h10 =>
      simp only [List.foldl_cons, List.foldl_nil, List.length_singleton]
      rw [digitChar_toNat n h10]
      ring
    · next h10 =>
      rw [List.foldl_append]
      have hdiv : n / 10 < 10 ^ fuel := by
        rw [Nat.div_lt_iff_lt_mul (by norm_num)]
        calc n < 10 ^ (fuel + 1) := h
          _ = 10 ^ fuel * 10 := pow_succ 10 fuel
      rw [ih (n / 10) acc hdiv]
      simp only [List.foldl_cons, List.foldl_nil, List.length_append, List.length_singleton]
      rw [digitChar_toNat (n % 10) (Nat.mod_lt n (by norm_num))]
      have hmod : 10 * (n / 10) + n % 10 = n := by omega
      calc 10 * (acc * 10 ^ (natStrGo fuel (n / 10)).length + n / 10) + n % 10
          = acc * (10 ^ (natStrGo fuel (n / 10)).length * 10) +
            (10 * (n / 10) + n % 10) := by ring
        _ = acc * 10 ^ ((natStrGo fuel (n / 10)).length + 1) + n := by
            rw [hmod, pow_succ]

theorem natStr_all_isDig (n : Nat) : (natStr n).all isDig = true :=
  natStrGo_all_isDig (n + 1) n

theorem parseNat_natStr (n : Nat) : parseNat (natStr n) = some n := by
  rw [parseNat, if_neg (natStr_ne_nil n), if_pos (natStr_all_isDig n)]
  have hlt : n < 10 ^ (n + 1) :=
    lt_of_lt_of_le (Nat.lt_pow_self (by norm_num) n)
      (Nat.pow_le_pow_right (by norm_num) (Nat.le_succ n))
  have h := natStrGo_foldl (n + 1) n 0 hlt
  unfold natStr
  rw [h]
  simp

theorem pyInt_intStr (i : Int) : pyInt (intStr i) = some i := by
  by_cases hneg : i < 0
  · rw [intStr, if_pos hneg]
    rw [pyInt, if_pos rfl, parseNat_natStr]
    have h2 : -(i.natAbs : Int) = i := by
      rw [Int.ofNat_natAbs_of_nonpos (le_of_lt hneg), neg_neg]
    exact congrArg some h2
  · rw [intStr, if_neg hneg]
    rcases hc : natStr i.toNat with _ | ⟨c, t⟩
    · exact absurd hc (natStr_ne_nil _)
    · have hcd : isDig c = true := mem_natStr_isDig (hc ▸ List.mem_cons_self c t)
      have hcne : c ≠ '-' := by
        intro h
        subst h
        exact absurd hcd (by decide)
      rw [pyInt, if_neg hcne, ← hc, parseNat_natStr]
      exact congrArg some (Int.toNat_of_nonneg (not_lt.mp hneg))

theorem hexChar_ne_amp (n : Nat) : hexChar n ≠ '&' := by
  intro contra
  rcases Nat.lt_or_ge n hexDigits.length with h | h
  · have hm : hexChar n ∈ hexDigits := by
      unfold hexChar
      rw [List.getD_eq_getElem _ _ h]
      exact List.getElem_mem h
    rw [contra] at hm
    exact absurd hm (by decide)
  · have h0 : hexChar n = '0' := List.getD_eq_default _ _ h
    rw [h0] at contra
    exact absurd contra (by decide)

theorem amp_not_mem_md5hex (s : List Char) : '&' ∉ md5hex s := by
  intro h
  rcases List.mem_flatMap.mp h with ⟨b, _, hb⟩
  rcases List.mem_cons.mp hb with h1 | h1
  · exact hexChar_ne_amp _ h1.symm
  · rcases List.mem_singleton.mp h1 with h1
    exact hexChar_ne_amp _ h1.symm

theorem pySplit_eq_of_not_mem {l : List Char} (h : '&' ∉ l) : pySplit '&' l = [l] := by
  induction l with
  | nil => rfl
  | cons c t ih =>
    have hc : c ≠ '&' := fun hc => h (hc ▸ List.mem_cons_self c t)
    have ht := ih fun hm => h (List.mem_cons_of_mem c hm)
    rw [pySplit, if_neg hc, ht]

theorem pySplit_append {l r : List Char} (h : '&' ∉ l) :
    pySplit '&' (l ++ '&' :: r) = l :: pySplit '&' r := by
  induction l with
  | nil => simp [pySplit]
  | cons c t ih =>
    have hc : c ≠ '&' := fun hc => h (hc ▸ List.mem_cons_self c t)
    have ht := ih fun hm => h (List.mem_cons_of_mem c hm)
    rw [List.cons_append, pySplit, if_neg hc, ht]

theorem pySplit_joinAmp (ps : List (List Char)) (h0 : ps ≠ [])
    (h : ∀ p ∈ ps, '&' ∉ p) : pySplit '&' (joinAmp ps) = ps := by
  induction ps with
  | nil => exact absurd rfl h0
  | cons p ps ih =>
    cases ps with
    | nil => exact pySplit_eq_of_not_mem (h p (List.mem_cons_self p []))
    | cons q ps' =>
      have hrec := ih (List.cons_ne_nil q ps') fun x hx => h x (List.mem_cons_of_mem p hx)
      rw [joinAmp, pySplit_append (h p (List.mem_cons_self p _)), hrec]
      exact fun hh => List.noConfusion hh

theorem split_encode_tile_key (c e ch r x y z t : Int) :
    pySplit '&' (encode_tile_key [c, e, ch] r x y z t) =
      md5hex (joinAmp [intStr c, intStr e, intStr ch, intStr r,
        intStr x, intStr y, intStr z, intStr t]) ::
      [intStr c, intStr e, intStr ch, intStr r, intStr x, intStr y, intStr z, intStr t] := by
  have hbase : encode_tile_key [c, e, ch] r x y z t =
      joinAmp (md5hex (joinAmp [intStr c, intStr e, intStr ch, intStr r,
          intStr x, intStr y, intStr z, intStr t]) ::
        [intStr c, intStr e, intStr ch, intStr r, intStr x, intStr y, intStr z, intStr t]) := by
    simp [encode_tile_key, joinAmp, List.append_assoc]
  rw [hbase]
  apply pySplit_joinAmp _ (List.cons_ne_nil _ _)
  intro p hp
  rcases List.mem_cons.mp hp with rfl | hp
  · exact amp_not_mem_md5hex _
  · fin_cases hp <;> exact amp_not_mem_intStr _

theorem split_encode_chunk_key (nt c e ch r x y z t : Int) :
    pySplit '&' (encode_chunk_key nt [c, e, ch] r x y z t) =
      md5hex (joinAmp [intStr nt, intStr c, intStr e, intStr ch, intStr r,
        intStr x, intStr y, intStr z, intStr t]) ::
      [intStr nt, intStr c, intStr e, intStr ch, intStr r,
        intStr x, intStr y, intStr z, intStr t] := by
  have hbase : encode_chunk_key nt [c, e, ch] r x y z t =
      joinAmp (md5hex (joinAmp [intStr nt, intStr c, intStr e, intStr ch, intStr r,
          intStr x, intStr y, intStr z, intStr t]) ::
        [intStr nt, intStr c, intStr e, intStr ch, intStr r,
          intStr x, intStr y, intStr z, intStr t]) := by
    simp [encode_chunk_key, joinAmp, List.append_assoc]
  rw [hbase]
  apply pySplit_joinAmp _ (List.cons_ne_nil _ _)
  intro p hp
  rcases List.mem_cons.mp hp with rfl | hp
  · exact amp_not_mem_md5hex _
  · fin_cases hp <;> exact amp_not_mem_intStr _

/-- Claim C5: for all integer inputs, decoding an encoded tile key returns
exactly the input tuple, and decoding an encoded chunk key returns exactly
the input tuple with `num_tiles` prepended. -/
theorem C5_key_codec_round_trip (c e ch r x y z t nt : Int) :
    decode_tile_key (encode_tile_key [c, e, ch] r x y z t) =
      some ⟨c, e, ch, r, x, y, z, t⟩ ∧
    decode_chunk_key (encode_chunk_key nt [c, e, ch] r x y z t) =
      some ⟨nt, c, e, ch, r, x, y, z, t⟩ := by
  constructor
  · unfold decode_tile_key
    rw [split_encode_tile_key]
    simp [pyInt_intStr]
  · unfold decode_chunk_key
    rw [split_encode_chunk_key]
    simp [pyInt_intStr]

/-! ## Claim C1: the join tuple arity -/

/-- Claim C1 (the code refutes it): the spec says that for every
successful return of `Backend.join` on a live job, `Engine.join`
terminates normally and stores job status, credentials, upload-queue URL,
tile bucket, job parameters and tile count.  In the code,
`BossBackend.join` returns a seven-component tuple while `Engine.join`
unpacks it into six names, so every successful backend join makes
`Engine.join` raise `ValueError` and nothing is stored. -/
theorem C1_engine_join_raises (r : JoinResponse) (now : Int) :
    (bossBackend_join_tuple r).length = 7 ∧
    engine_join r now = .error "ValueError: too many values to unpack (expected 6)".toList :=
  ⟨rfl, rfl⟩

/-! ## Claim C2: volumetric delete-after-upload -/

theorem upload_chunk_loop_spec (puts : List PutOutcome) :
    ∀ (st : WorkerCounters) (acc : Nat),
    (upload_chunk_loop st puts acc).delete_called = (upload_chunk_loop st puts acc).retval ∧
    ((upload_chunk_loop st puts acc).retval = true →
      (upload_chunk_loop st puts acc).cuboids_attempted = acc + puts.length) ∧
    ((upload_chunk_loop st puts acc).retval = false →
      (upload_chunk_loop st puts acc).cuboids_attempted ≤ acc + puts.length) := by
  induction puts with
  | nil =>
    intro st acc
    simp [upload_chunk_loop]
  | cons p rest ih =>
    intro st acc
    rw [upload_chunk_loop]
    rcases hup : (upload_cuboid st p).2 with _ | _
    · rw [if_neg (by simp)]
      refine ⟨rfl, by simp, ?_⟩
      intro _
      simp only [List.length_cons]
      omega
    · rw [if_pos rfl]
      rcases ih (upload_cuboid st p).1 (acc + 1) with ⟨h1, h2, h3⟩
      refine ⟨h1, ?_, ?_⟩
      · intro h
        rw [h2 h]
        simp only [List.length_cons]
        omega
      · intro h
        have := h3 h
        simp only [List.length_cons]
        omega

/-- Counterexample to claim C2: a volumetric task with two cuboids whose
first `put_object` call raises a generic exception.  The worker still
attempts the second cuboid and still calls `delete_task` on the task's
message, although the first cuboid was not uploaded successfully. -/
theorem C2_counterexample :
    upload_chunk initCounters (.ok "chunk_file".toList) (.ok ())
      [.err "boom".toList, .ok] = .ok ⟨initCounters, true, true, 2⟩ := by rfl

/-- Claim C2 as amended: `delete_task` is called exactly when the cuboid
loop runs to completion, i.e. when every `upload_cuboid` call returned
`True`; a cuboid upload exception only makes `upload_cuboid` return
`False` via the AccessDenied / InvalidAccessKeyId 20-count thresholds, so
a generic upload failure does not stop the loop nor prevent deletion; when
some call does return `False`, the remaining cuboids are not attempted and
the message is not deleted. -/
theorem C2_amended (st : WorkerCounters) (loc : List Char) (puts : List PutOutcome) :
    ∃ tr : ChunkTrace, upload_chunk st (.ok loc) (.ok ()) puts = .ok tr ∧
      tr.delete_called = tr.retval ∧
      (tr.retval = true → tr.cuboids_attempted = puts.length) ∧
      (tr.retval = false → tr.delete_called = false ∧ tr.cuboids_attempted ≤ puts.length) := by
  refine ⟨upload_chunk_loop st puts 0, rfl, ?_⟩
  rcases upload_chunk_loop_spec puts st 0 with ⟨h1, h2, h3⟩
  exact ⟨h1, fun h => by simpa using h2 h, fun h => ⟨by rw [h1, h], by simpa using h3 h⟩⟩

/-- Witness for the amended claim C2 at a concrete input. -/
theorem C2_amended_witness :
    ∃ tr : ChunkTrace, upload_chunk initCounters (.ok []) (.ok ()) [.ok, .ok] = .ok tr ∧
      tr.delete_called = tr.retval ∧
      (tr.retval = true → tr.cuboids_attempted = [PutOutcome.ok, PutOutcome.ok].length) ∧
      (tr.retval = false → tr.delete_called = false ∧
        tr.cuboids_attempted ≤ [PutOutcome.ok, PutOutcome.ok].length) :=
  C2_amended initCounters [] [.ok, .ok]

/-! ## Claim C3: task-level failure handling -/

/-- Counterexample to claim C3: a task whose path-resolver call raises.
The call sits outside the `try` block of `upload_tile`, so the exception
propagates out of the method instead of being swallowed. -/
theorem C3_counterexample :
    upload_tile initCounters (.exn "No such file or directory".toList) (.ok ()) .ok
      "mid".toList "rh".toList = .error "No such file or directory".toList := by rfl

/-- Claim C3 as amended: a path-resolver or data-reader exception
propagates out of `upload_tile` / `upload_chunk` (the calls are outside
the `try` blocks), terminating `Engine.run`; only exceptions raised by the
upload itself are caught, and an upload exception not classified as
AccessDenied or InvalidAccessKeyId is logged and swallowed, with
`upload_tile` returning `True` and unchanged counters so the worker
continues to the next task. -/
theorem C3_amended (st : WorkerCounters) (m loc mid rh : List Char)
    (read : StepOutcome Unit) (put : PutOutcome) (puts : List PutOutcome) :
    upload_tile st (.exn m) read put mid rh = .error m ∧
    upload_tile st (.ok loc) (.exn m) put mid rh = .error m ∧
    upload_chunk st (.exn m) read puts = .error m ∧
    upload_chunk st (.ok loc) (.exn m) puts = .error m ∧
    (pyStartsWith accessDeniedMsg m = false → pyStartsWith invalidKeyMsg m = false →
      upload_tile st (.ok loc) (.ok ()) (.err m) mid rh = .ok ⟨st, true, none, []⟩) := by
  refine ⟨rfl, rfl, rfl, rfl, fun h1 h2 => ?_⟩
  simp [upload_tile, classify_upload_failure, h1, h2]

/-- Witness for the amended claim C3 at a concrete input. -/
theorem C3_amended_witness :
    upload_tile initCounters (.exn "e1".toList) (.ok ()) .ok [] [] = .error "e1".toList ∧
    upload_tile initCounters (.ok []) (.exn "e1".toList) .ok [] [] = .error "e1".toList ∧
    upload_chunk initCounters (.exn "e1".toList) (.ok ()) [] = .error "e1".toList ∧
    upload_chunk initCounters (.ok []) (.exn "e1".toList) [] = .error "e1".toList ∧
    (pyStartsWith accessDeniedMsg "e1".toList = false →
      pyStartsWith invalidKeyMsg "e1".toList = false →
      upload_tile initCounters (.ok []) (.ok ()) (.err "e1".toList) [] [] =
        .ok ⟨initCounters, true, none, []⟩) :=
  C3_amended initCounters "e1".toList [] [] [] (.ok ()) .ok []

/-! ## Claim C4: `get_task` under persistent credential errors -/

theorem get_task_go_all_clientError (recv : Nat → ReceiveOutcome)
    (h : ∀ i, recv i = .clientError) :
    ∀ (k try_cnt attempt : Nat) (sleeps : List Nat), 19 - try_cnt = k → try_cnt ≤ 19 →
    get_task_go recv try_cnt attempt sleeps =
      ⟨attempt + k, sleeps ++ List.replicate k 15, some none⟩ := by
  intro k
  induction k with
  | zero =>
    intro try_cnt attempt sleeps hk hb
    rw [get_task_go, if_neg (by omega)]
    simp
  | succ k ih =>
    intro try_cnt attempt sleeps hk hb
    rw [get_task_go, if_pos (by omega), h attempt]
    dsimp only
    rw [if_neg (by omega)]
    rw [ih (try_cnt + 1) (attempt + 1) (sleeps ++ [15]) (by omega) (by omega)]
    have hn : attempt + 1 + k = attempt + (k + 1) := by omega
    have hs : (sleeps ++ [15]) ++ List.replicate k 15 = sleeps ++ List.replicate (k + 1) 15 := by
      rw [List.append_assoc, List.singleton_append, ← List.replicate_succ]
    rw [hn, hs]

/-- Counterexample to claim C4: when every receive attempt fails with a
credential-invalid client error, `get_task` makes 19 attempts, sleeping
15 s after each, and then returns `(None, None, None)` — it does not
raise.  The `try_cnt >= 20` raise guard is unreachable because the loop
condition `try_cnt < 19` bounds the counter at 19. -/
theorem C4_counterexample :
    get_task (fun _ => .clientError) = ⟨19, List.replicate 19 15, some none⟩ := by
  rw [get_task, get_task_go_all_clientError (fun _ => .clientError) (fun _ => rfl) 19 0 0 []
    rfl (by omega)]
  simp

/-- Claim C4 as amended: when every work-queue receive attempt fails with
a credential-invalid client error, `get_task` sleeps 15 s between attempts
and retries up to 19 times, after which it returns the empty triple
`(None, None, None)` rather than raising; the internal
credentials-invalid raise is dead code. -/
theorem C4_amended (recv : Nat → ReceiveOutcome) (h : ∀ i, recv i = .clientError) :
    get_task recv = ⟨19, List.replicate 19 15, some none⟩ := by
  rw [get_task, get_task_go_all_clientError recv h 19 0 0 [] rfl (by omega)]
  simp

/-- Witness for the amended claim C4 at a concrete input. -/
theorem C4_amended_witness :
    get_task (fun _ => .clientError) = ⟨19, List.replicate 19 15, some none⟩ :=
  C4_amended (fun _ => .clientError) (fun _ => rfl)

/-! ## Claim C6: the coordinator's completion phase -/

/-- Counterexample to claim C6: with `complete` returning `WAIT(30)`, the
coordinator neither sleeps nor calls `complete` a second time — client.py
lines 336-347 call `engine.complete()` exactly once and discard the
returned `(IngestStatus, wait_secs)` value. -/
theorem C6_counterexample :
    completion_phase true false (fun _ => (IngestStatus.WAIT, 30)) = ⟨1, [], 0⟩ := rfl

/-- Claim C6 as amended: `BossBackend.complete` does map a 204 to `STOP`
(`DONE`), a 400 or a 202 `WAIT_ON_QUEUES` body with `wait_secs` to
`WAIT`, and a 202 `COMPLETING` body to `COMPLETING` (`POLLING`); but the
coordinator's completion phase calls `complete` exactly once — when the
monitor loop exited naturally and `--manual-complete` was not given — and
ignores the returned state: it never sleeps, never re-calls `complete`,
and never polls `get_job_status`. -/
theorem C6_amended (jc mc : Bool) (results : Nat → IngestStatus × Nat) :
    completion_phase jc mc results =
      ⟨if jc && !mc then 1 else 0, [], 0⟩ ∧
    boss_complete 204 none = .ok (.STOP, 0) ∧
    (∀ w, boss_complete 400 (some ⟨some w, none⟩) = .ok (.WAIT, w)) ∧
    (∀ w, boss_complete 202 (some ⟨some w, some 6⟩) = .ok (.WAIT, w)) ∧
    boss_complete 202 (some ⟨none, some 5⟩) = .ok (.COMPLETING, 0) := by
  refine ⟨?_, rfl, fun w => rfl, fun w => rfl, rfl⟩
  unfold completion_phase
  rcases jc with _ | _ <;> rcases mc with _ | _ <;> rfl

/-! ## Claim C7: credential refresh does not reset the failure counters -/

/-- Counterexample to claim C7: an iteration whose credential age (10000 s
against a 3300 s timeout) exceeds the limit does rejoin, but the
access-denied counter stays 3 and the invalid-access-key counter stays 7,
not 0 as the claim states. -/
theorem C7_counterexample :
    run_loop_prelude ⟨false, 3, false, 7, 0⟩ 10000 3300 =
      (⟨false, 3, false, 7, 10000⟩, true) := rfl

/-- Claim C7 as amended: on every iteration whose credential age exceeds
the configured timeout the worker does rejoin (refreshing the credential
timestamp), but neither the access-denied counter nor the
invalid-access-key counter is reset — the counters are zeroed only once,
before the loop starts. -/
theorem apply_flags_counts (st : RunLoopState) :
    (apply_access_denied_flag st).access_denied_count = st.access_denied_count ∧
    (apply_access_denied_flag st).invalid_access_key_count = st.invalid_access_key_count ∧
    (apply_invalid_key_flag st).access_denied_count = st.access_denied_count ∧
    (apply_invalid_key_flag st).invalid_access_key_count = st.invalid_access_key_count := by
  unfold apply_access_denied_flag apply_invalid_key_flag
  split_ifs <;> exact ⟨rfl, rfl, rfl, rfl⟩

theorem apply_flags_create_le (st : RunLoopState)
    (hmin : datetimeMin ≤ st.credential_create_time) :
    (datetimeMin ≤ (apply_access_denied_flag st).credential_create_time ∧
      (apply_access_denied_flag st).credential_create_time ≤ st.credential_create_time) ∧
    (datetimeMin ≤ (apply_invalid_key_flag st).credential_create_time ∧
      (apply_invalid_key_flag st).credential_create_time ≤ st.credential_create_time) := by
  unfold apply_access_denied_flag apply_invalid_key_flag
  split_ifs <;> refine ⟨⟨?_, ?_⟩, ?_, ?_⟩ <;> (try dsimp only) <;> omega

theorem C7_amended (st : RunLoopState) (now timeout : Int)
    (hmin : datetimeMin ≤ st.credential_create_time)
    (hage : now - st.credential_create_time > timeout) :
    (run_loop_prelude st now timeout).2 = true ∧
    (run_loop_prelude st now timeout).1.access_denied_count = st.access_denied_count ∧
    (run_loop_prelude st now timeout).1.invalid_access_key_count = st.invalid_access_key_count ∧
    (run_loop_prelude st now timeout).1.credential_create_time = now := by
  have h1 := apply_flags_create_le st hmin
  have h2 := apply_flags_create_le (apply_access_denied_flag st) h1.1.1
  have hc1 := apply_flags_counts st
  have hc2 := apply_flags_counts (apply_access_denied_flag st)
  have hcond : now - (apply_invalid_key_flag (apply_access_denied_flag st)).credential_create_time
      > timeout := by
    have := h2.2.2
    have := h1.1.2
    omega
  have hgoal : run_loop_prelude st now timeout =
      ({ apply_invalid_key_flag (apply_access_denied_flag st) with
          credential_create_time := now }, true) := by
    unfold run_loop_prelude
    exact if_pos hcond
  rw [hgoal]
  refine ⟨rfl, ?_, ?_, rfl⟩
  · show (apply_invalid_key_flag (apply_access_denied_flag st)).access_denied_count =
      st.access_denied_count
    rw [hc2.2.2.1, hc1.1]
  · show (apply_invalid_key_flag (apply_access_denied_flag st)).invalid_access_key_count =
      st.invalid_access_key_count
    rw [hc2.2.2.2, hc1.2.1]

/-- Witness for the amended claim C7 at a concrete input. -/
theorem C7_amended_witness :
    (run_loop_prelude ⟨false, 3, false, 7, 0⟩ 10000 3300).2 = true ∧
    (run_loop_prelude ⟨false, 3, false, 7, 0⟩ 10000 3300).1.access_denied_count =
      (⟨false, 3, false, 7, 0⟩ : RunLoopState).access_denied_count ∧
    (run_loop_prelude ⟨false, 3, false, 7, 0⟩ 10000 3300).1.invalid_access_key_count =
      (⟨false, 3, false, 7, 0⟩ : RunLoopState).invalid_access_key_count ∧
    (run_loop_prelude ⟨false, 3, false, 7, 0⟩ 10000 3300).1.credential_create_time = 10000 :=
  C7_amended ⟨false, 3, false, 7, 0⟩ 10000 3300 (by decide) (by decide)

/-! ## Claim C8: retry and backoff parameters of join / get_job_status -/

/-- Counterexample to claim C8: the join backoff is not capped at 30 s —
after 5 retries the pause range already reaches 102.4 s (102400 ms), and
its true cap is 1000000 ms; `get_job_status` does not share join's retried
statuses (it fails a 400 immediately) and fails after 100 retries, not
1000. -/
theorem C8_counterexample :
    join_handle_response 500 5 = .retryPause 1 102400 ∧
    join_handle_response 500 15 = .retryPause 1 1000000 ∧
    get_job_status_handle_response 400 0 = .fail ∧
    get_job_status_handle_response 500 100 = .fail := by decide

/-- Claim C8 as amended: `join` retries 400/500/502/503 with jittered
exponential backoff `100 * 2 ** (retries + 4)` ms — seed `100 * 2 ** 5` ms
on the first retry — capped at 1000000 ms (1000 s), for up to 1000
retries; `get_job_status` retries only 500/502/503 with backoff
`100 * 2 ** retries` ms capped at 30000 ms (30 s), for up to 100
retries. -/
theorem C8_amended (r : Nat) :
    (∀ code, code ∈ [400, 500, 502, 503] → r < 1000 →
      join_handle_response code r = .retryPause 1 (min 1000000 (100 * 2 ^ (r + 1 + 4)))) ∧
    join_handle_response 400 0 = .retryPause 1 (100 * 2 ^ 5) ∧
    (∀ code, code ∈ [400, 500, 502, 503] → 1000 ≤ r → join_handle_response code r = .fail) ∧
    (∀ code, code ∈ [500, 502, 503] → r < 100 →
      get_job_status_handle_response code r = .retryPause 1 (min 30000 (100 * 2 ^ (r + 1)))) ∧
    get_job_status_handle_response 400 r = .fail ∧
    (∀ code, code ∈ [500, 502, 503] → 100 ≤ r →
      get_job_status_handle_response code r = .fail) := by
  refine ⟨?_, by decide, ?_, ?_, ?_, ?_⟩
  · intro code hm hr
    unfold join_handle_response
    rw [if_pos hm, if_neg (by omega)]
  · intro code hm hr
    unfold join_handle_response
    rw [if_pos hm, if_pos (by omega)]
  · intro code hm hr
    unfold get_job_status_handle_response
    rw [if_pos hm, if_neg (by omega)]
  · unfold get_job_status_handle_response
    rw [if_neg (by decide), if_pos (by decide)]
  · intro code hm hr
    unfold get_job_status_handle_response
    rw [if_pos hm, if_pos (by omega)]

/-- Witness for the amended claim C8 at a concrete input. -/
theorem C8_amended_witness :
    join_handle_response 500 3 = .retryPause 1 (min 1000000 (100 * 2 ^ (3 + 1 + 4))) :=
  (C8_amended 3).1 500 (by decide) (by decide)

/-! ## Claim C9: the `Engine.run` startup guard -/

/-- Counterexample to claim C9: a joined engine whose job status is 3
(`DELETED`) passes the startup guard of `Engine.run` and proceeds to fetch
tasks; the guard raises only on status 0 (`PREPARING`) and 2
(`COMPLETE`). -/
theorem C9_counterexample :
    run_guard (some ⟨"AK".toList, "SK".toList⟩) 3 = none := rfl

/-- Claim C9 as amended: `Engine.run` raises before fetching any task when
credentials are missing or the job status is 0 (`PREPARING`) or 2
(`COMPLETE`); every other status — including 3 (`DELETED`), 4 (`FAILED`),
5 (`COMPLETING`) and 6 (`WAIT_ON_QUEUES`) — passes the guard and enters
the task loop. -/
theorem C9_amended (creds : Credentials) (s : Nat) :
    run_guard none s ≠ none ∧
    (run_guard (some creds) s = none ↔ s ≠ 0 ∧ s ≠ 2) := by
  constructor
  · unfold run_guard
    simp
  · unfold run_guard
    split_ifs with h1 h2 h3 <;> simp_all

/-! ## Claim C10: `delete_task` never raises -/

theorem delete_task_go_result_ne_none (recv : Nat → DeleteOutcome) :
    ∀ (k try_cnt attempt : Nat) (sleeps : List Nat), 19 - try_cnt = k →
    (delete_task_go recv try_cnt attempt sleeps).result ≠ none := by
  intro k
  induction k with
  | zero =>
    intro try_cnt attempt sleeps hk
    rw [delete_task_go, if_neg (by omega)]
    simp
  | succ k ih =>
    intro try_cnt attempt sleeps hk
    rw [delete_task_go, if_pos (by omega)]
    rcases hr : recv attempt with b | sf | _ | _
    · rcases b with _ | _
      · exact ih (try_cnt + 1) (attempt + 1) _ (by omega)
      · simp
    · rcases sf with _ | _
      · exact ih (try_cnt + 1) (attempt + 1) _ (by omega)
      · simp
    · exact ih (try_cnt + 1) (attempt + 1) _ (by omega)
    · dsimp only
      rw [if_neg (by omega)]
      exact ih (try_cnt + 1) (attempt + 1) _ (by omega)

theorem delete_task_go_attempts_le (recv : Nat → DeleteOutcome) :
    ∀ (k try_cnt attempt : Nat) (sleeps : List Nat), 19 - try_cnt = k →
    (delete_task_go recv try_cnt attempt sleeps).attempts ≤ attempt + k := by
  intro k
  induction k with
  | zero =>
    intro try_cnt attempt sleeps hk
    rw [delete_task_go, if_neg (by omega)]
    simp
  | succ k ih =>
    intro try_cnt attempt sleeps hk
    rw [delete_task_go, if_pos (by omega)]
    rcases hr : recv attempt with b | sf | _ | _
    · rcases b with _ | _
      · show (delete_task_go recv (try_cnt + 1) (attempt + 1)
            (sleeps ++ [get_wait_time (try_cnt + 1)])).attempts ≤ attempt + (k + 1)
        have := ih (try_cnt + 1) (attempt + 1) (sleeps ++ [get_wait_time (try_cnt + 1)]) (by omega)
        omega
      · show attempt + 1 ≤ attempt + (k + 1)
        omega
    · rcases sf with _ | _
      · show (delete_task_go recv (try_cnt + 1) (attempt + 1)
            (sleeps ++ [get_wait_time (try_cnt + 1)])).attempts ≤ attempt + (k + 1)
        have := ih (try_cnt + 1) (attempt + 1) (sleeps ++ [get_wait_time (try_cnt + 1)]) (by omega)
        omega
      · show attempt + 1 ≤ attempt + (k + 1)
        omega
    · show (delete_task_go recv (try_cnt + 1) (attempt + 1)
          (sleeps ++ [get_wait_time (try_cnt + 1)])).attempts ≤ attempt + (k + 1)
      have := ih (try_cnt + 1) (attempt + 1) (sleeps ++ [get_wait_time (try_cnt + 1)]) (by omega)
      omega
    · show (if try_cnt + 1 ≥ 20 then (⟨attempt + 1, sleeps ++ [15], none⟩ : DeleteTrace)
          else delete_task_go recv (try_cnt + 1) (attempt + 1)
            (sleeps ++ [15])).attempts ≤ attempt + (k + 1)
      rw [if_neg (by omega)]
      have := ih (try_cnt + 1) (attempt + 1) (sleeps ++ [15]) (by omega)
      omega

theorem delete_task_go_all_failed (recv : Nat → DeleteOutcome)
    (h : ∀ i, recv i ≠ .success true ∧ recv i ≠ .failed true) :
    ∀ (k try_cnt attempt : Nat) (sleeps : List Nat), 19 - try_cnt = k →
    (delete_task_go recv try_cnt attempt sleeps).result = some false ∧
    (delete_task_go recv try_cnt attempt sleeps).attempts = attempt + k := by
  intro k
  induction k with
  | zero =>
    intro try_cnt attempt sleeps hk
    rw [delete_task_go, if_neg (by omega)]
    simp
  | succ k ih =>
    intro try_cnt attempt sleeps hk
    rw [delete_task_go, if_pos (by omega)]
    rcases hr : recv attempt with b | sf | _ | _
    · rcases b with _ | _
      · show (delete_task_go recv (try_cnt + 1) (attempt + 1)
              (sleeps ++ [get_wait_time (try_cnt + 1)])).result = some false ∧
            (delete_task_go recv (try_cnt + 1) (attempt + 1)
              (sleeps ++ [get_wait_time (try_cnt + 1)])).attempts = attempt + (k + 1)
        have := ih (try_cnt + 1) (attempt + 1) (sleeps ++ [get_wait_time (try_cnt + 1)]) (by omega)
        exact ⟨this.1, by omega⟩
      · exact absurd hr (h attempt).1
    · rcases sf with _ | _
      · show (delete_task_go recv (try_cnt + 1) (attempt + 1)
              (sleeps ++ [get_wait_time (try_cnt + 1)])).result = some false ∧
            (delete_task_go recv (try_cnt + 1) (attempt + 1)
              (sleeps ++ [get_wait_time (try_cnt + 1)])).attempts = attempt + (k + 1)
        have := ih (try_cnt + 1) (attempt + 1) (sleeps ++ [get_wait_time (try_cnt + 1)]) (by omega)
        exact ⟨this.1, by omega⟩
      · exact absurd hr (h attempt).2
    · show (delete_task_go recv (try_cnt + 1) (attempt + 1)
            (sleeps ++ [get_wait_time (try_cnt + 1)])).result = some false ∧
          (delete_task_go recv (try_cnt + 1) (attempt + 1)
            (sleeps ++ [get_wait_time (try_cnt + 1)])).attempts = attempt + (k + 1)
      have := ih (try_cnt + 1) (attempt + 1) (sleeps ++ [get_wait_time (try_cnt + 1)]) (by omega)
      exact ⟨this.1, by omega⟩
    · show ((if try_cnt + 1 ≥ 20 then (⟨attempt + 1, sleeps ++ [15], none⟩ : DeleteTrace)
            else delete_task_go recv (try_cnt + 1) (attempt + 1)
              (sleeps ++ [15]))).result = some false ∧
          ((if try_cnt + 1 ≥ 20 then (⟨attempt + 1, sleeps ++ [15], none⟩ : DeleteTrace)
            else delete_task_go recv (try_cnt + 1) (attempt + 1)
              (sleeps ++ [15]))).attempts = attempt + (k + 1)
      rw [if_neg (by omega)]
      have := ih (try_cnt + 1) (attempt + 1) (sleeps ++ [15]) (by omega)
      exact ⟨this.1, by omega⟩

/-- Claim C10: `delete_task` never raises — for every sequence of delete
outcomes it returns a boolean: its raise guard `try_cnt >= 20` is
unreachable because the loop condition `try_cnt < MAX_TRIES - 1` keeps the
counter at most 19; when every response fails (no matching successful
delete and no sender fault) it returns `False` after 19 attempts; a
sender-fault failure makes it return `False` immediately. -/
theorem C10_delete_task_never_raises (recv : Nat → DeleteOutcome) :
    (delete_task recv).result ≠ none ∧
    (delete_task recv).attempts ≤ 19 ∧
    ((∀ i, recv i ≠ .success true ∧ recv i ≠ .failed true) →
      (delete_task recv).result = some false ∧ (delete_task recv).attempts = 19) ∧
    (recv 0 = .failed true → delete_task recv = ⟨1, [], some false⟩) := by
  refine ⟨delete_task_go_result_ne_none recv 19 0 0 [] rfl,
    delete_task_go_attempts_le recv 19 0 0 [] rfl, ?_, ?_⟩
  · intro h
    exact delete_task_go_all_failed recv h 19 0 0 [] rfl
  · intro h0
    rw [delete_task, delete_task_go, if_pos (by omega), h0]
    rfl

/-- Witness for claim C10 at a concrete input. -/
theorem C10_delete_task_never_raises_witness :
    (delete_task (fun _ => DeleteOutcome.clientError)).result = some false ∧
    (delete_task (fun _ => DeleteOutcome.clientError)).attempts = 19 :=
  (C10_delete_task_never_raises (fun _ => DeleteOutcome.clientError)).2.2.1
    (fun _ => ⟨by simp, by simp⟩)

/-! ## End-to-end validation of the embedded MD5 and key codec against the
spec's concrete scenarios -/

/-- End-to-end scenario: the encoded tile key for collection 1,
experiment 2, channel 3, resolution 0, x 5, y 6, z 1, t 0, MD5 hex prefix
included. -/
theorem encode_tile_key_scenario :
    encode_tile_key [1, 2, 3] 0 5 6 1 0 =
      "03ca58a12ec662954ac12e06517d4269&1&2&3&0&5&6&1&0".toList := by decide

/-- End-to-end scenario: the encoded chunk key for the same indices with
num_tiles 16 prepended to the base before hashing. -/
theorem encode_chunk_key_scenario :
    encode_chunk_key 16 [1, 2, 3] 0 5 6 1 0 =
      "77ff984241a0d6aa443d8724a816866d&16&1&2&3&0&5&6&1&0".toList := by decide

end IngestClient
